import Mathlib

/-!
# Verification of `rusty-wallpaper` (src/main.rs)

A shallow embedding of the wallpaper-changer program. The program is a
single Rust file: a catalog client (`get_wallpaper_list`), a
directory-backed wallpaper cache (`download_wallpaper`), OS-integration
wrappers, and a scheduler loop in `main`.

External effects (HTTP transport, JSON deserialization, the Windows
platform calls, the RNG draw, the environment) are modelled as explicit
oracle parameters; the filesystem is modelled as an explicit state value.
Control flow, string construction, effect ordering and error mapping are
translated directly from the source.
-/

namespace RustyWallpaper

/-- The six error variants of `ApplicationError` in `main.rs`. -/
inductive ApplicationError where
  | DeserializationError (e : String)
  | RequestError (e : String)
  | ApiError (e : String)
  | IoError (e : String)
  | WindowsOSError (e : String)
  | WrongEnvironmentVariable (e : String)
deriving DecidableEq, Repr

/-- Model of `struct Meta`: pagination metadata of a catalog page. -/
structure Meta where
  limit : Nat
  next : Option String
  offset : Nat
  previous : Option String
  total_count : Nat
deriving DecidableEq, Repr

/-- Model of `struct Creator`. -/
structure Creator where
  email : Option String
  name : Option String
  url : Option String
deriving DecidableEq, Repr

/-- Model of `struct Object`: one catalog entry. -/
structure Object where
  creator : Creator
  id : String
  iphone_thumb : String
  permalink : String
  title : String
  url : String
deriving DecidableEq, Repr

/-- Model of `struct JsonWallpaperList`: one deserialized catalog page. -/
structure JsonWallpaperList where
  meta : Meta
  objects : List Object
deriving DecidableEq, Repr

/-- Model of `struct SimpleWallpaper`: the catalog-client state held by `main`. -/
structure SimpleWallpaper where
  total_count : Nat
  directory : String
deriving DecidableEq, Repr

/-- Outcome of one `reqwest::get(..).text()` round trip: either the body
text, or a transport error message (`reqwest::Error`). -/
inductive HttpResult where
  | ok (body : String)
  | err (msg : String)
deriving DecidableEq, Repr

/-- Model of `const URL_DESKTOP`. -/
def URL_DESKTOP : String :=
  "http://api.simpledesktops.com/v1/desktop_mobile/?format=json&limit=1"

/-- Model of `SimpleWallpaper::get_url_for_offset`. -/
def get_url_for_offset (offset : Nat) : String :=
  URL_DESKTOP ++ "&offset=" ++ toString offset

/-- Model of `SimpleWallpaper::get_wallpaper_list`, with the HTTP transport
(`httpText`, keyed by URL) and the serde JSON parser (`parse`) as oracles.
A transport failure becomes `RequestError` via the `From<reqwest::Error>`
impl; a parse failure is mapped to `DeserializationError`. -/
def get_wallpaper_list (httpText : String → HttpResult)
    (parse : String → Except String JsonWallpaperList) (offset : Nat) :
    Except ApplicationError JsonWallpaperList :=
  match httpText (get_url_for_offset offset) with
  | .err m => .error (.RequestError m)
  | .ok text =>
    match parse text with
    | .error m => .error (.DeserializationError m)
    | .ok w => .ok w

/-- Model of `SimpleWallpaper::new`: fetches page 0 once and captures
`meta.total_count`. -/
def SimpleWallpaper.new (httpText : String → HttpResult)
    (parse : String → Except String JsonWallpaperList) (dir : String) :
    Except ApplicationError SimpleWallpaper :=
  match get_wallpaper_list httpText parse 0 with
  | .ok wallpaper_list => .ok ⟨wallpaper_list.meta.total_count, dir⟩
  | .error e => .error e

/-- Filesystem state: the set of existing directories and the existing
files with their byte contents (most recent write first). -/
structure FS where
  dirs : List String
  files : List (String × List Nat)
deriving DecidableEq, Repr

/-- Model of `std::path::Path::exists`: something exists at this path. -/
def FS.pathExists (fs : FS) (p : String) : Bool :=
  (fs.files.lookup p).isSome || fs.dirs.contains p

/-- Model of `fs::create_dir_all`: idempotent directory creation. -/
def FS.create_dir_all (fs : FS) (p : String) : FS :=
  if fs.dirs.contains p then fs else { fs with dirs := p :: fs.dirs }

/-- Model of `File::create`: creates (or truncates to) an empty file at the path. -/
def FS.create_file (fs : FS) (p : String) : FS :=
  { fs with files := (p, ([] : List Nat)) :: fs.files }

/-- Model of `Write::write_all`: replaces the file contents with the given bytes. -/
def FS.write_all (fs : FS) (p : String) (bytes : List Nat) : FS :=
  { fs with files := (p, bytes) :: fs.files }

/-- Observable network / platform effects of one operation, in order. -/
inductive Effect where
  | catalogFetch (offset : Nat)
  | imageDownload (url : String)
  | setWallpaper (path : String)
deriving DecidableEq, Repr

/-- Result of `SimpleWallpaper::download_wallpaper`: the returned
`ApplicationResult<String>`, the filesystem after the call, and the
effects performed. -/
structure DLResult where
  result : Except ApplicationError String
  fs : FS
  effects : List Effect
deriving Repr

/-- Number of image GETs among a list of effects. -/
def countDownloads (effects : List Effect) : Nat :=
  (effects.filter fun e =>
    match e with
    | .imageDownload _ => true
    | _ => false).length

/-- Model of `SimpleWallpaper::download_wallpaper`, translated line by line:
fetch the page at `number`; build `sd_directory`; `create_dir_all` it;
fail with `ApiError` if the page has no objects; otherwise build the
target filename, return it at once if the path exists, else create the
file, GET the image bytes (`httpBytes`, keyed by the entry URL;
transport failure becomes `RequestError`) and write them. -/
def download_wallpaper (httpText : String → HttpResult)
    (parse : String → Except String JsonWallpaperList)
    (httpBytes : String → Except String (List Nat))
    (self : SimpleWallpaper) (number : Nat) (dir : String) (fs : FS) :
    DLResult :=
  match get_wallpaper_list httpText parse number with
  | .error e => ⟨.error e, fs, [.catalogFetch number]⟩
  | .ok wallpaper_list =>
    let sd_directory := dir ++ "/" ++ self.directory ++ "/"
    let fs1 := fs.create_dir_all sd_directory
    match wallpaper_list.objects with
    | [] =>
      ⟨.error (.ApiError "The list of objects retrieved is less than 1"),
        fs1, [.catalogFetch number]⟩
    | obj :: _ =>
      let wallpaper_filename := sd_directory ++ obj.title ++ ".png"
      if fs1.pathExists wallpaper_filename then
        ⟨.ok wallpaper_filename, fs1, [.catalogFetch number]⟩
      else
        let fs2 := fs1.create_file wallpaper_filename
        match httpBytes obj.url with
        | .error m =>
          ⟨.error (.RequestError m), fs2,
            [.catalogFetch number, .imageDownload obj.url]⟩
        | .ok bytes =>
          ⟨.ok wallpaper_filename, fs2.write_all wallpaper_filename bytes,
            [.catalogFetch number, .imageDownload obj.url]⟩

/-- Model of `get_special_directory`: wraps `SHGetSpecialFolderPathW` (oracle
`platform`); a failing platform call becomes `WindowsOSError`. -/
def get_special_directory (platform : Except String String) :
    Except ApplicationError String :=
  match platform with
  | .ok s => .ok s
  | .error m =>
    .error (.WindowsOSError ("SHGetSpecialFolderPathW failed: " ++ m))

/-- Model of `get_image_path`: resolves the pictures directory (`CSIDL_MYPICTURES`). -/
def get_image_path (platform : Except String String) :
    Except ApplicationError String :=
  get_special_directory platform

/-- The two statements of `main` that pick `download_directory`:
`get_image_path()?` runs first, and only then is the
`SIMPLE_DESKTOP_DIRECTORY` environment variable consulted
(`unwrap_or_else` falling back to the platform result). -/
def resolve_download_directory (platform : Except String String)
    (env_dir : Option String) : Except ApplicationError String :=
  match get_image_path platform with
  | .error e => .error e
  | .ok default_download_directory => .ok (env_dir.getD default_download_directory)

/-- Model of `set_wallpaper`: wraps `SystemParametersInfoW` (oracle `platformSet`). -/
def set_wallpaper (platformSet : String → Except String Unit)
    (path : String) : Except ApplicationError Unit :=
  match platformSet path with
  | .ok _ => .ok ()
  | .error m =>
    .error (.WindowsOSError ("SystemParametersInfoW failed: " ++ m))

/-- Model of Rust `str::parse::<u64>`: an optional leading `+` followed by
at least one ASCII digit, value below `2^64`; the error messages are the
display texts of `ParseIntError`. -/
def rust_parse_u64 (s : String) : Except String Nat :=
  let cs := if s.data.head? = some '+' then s.data.tail else s.data
  if cs.isEmpty then .error "cannot parse integer from empty string"
  else if cs.all (fun c => c.isDigit) then
    let n := cs.foldl (fun a c => a * 10 + (c.toNat - 48)) 0
    if n < 2 ^ 64 then .ok n
    else .error "number too large to fit in target type"
  else .error "invalid digit found in string"

/-- Model of rand 0.6 `Rng::gen_range(low, high)`: a uniform draw in
`[low, high)` (here derived from the raw draw `r`); panics (`none`) when
`low >= high`, e.g. on an empty range `gen_range(0, 0)`. -/
def gen_range (low high r : Nat) : Option Nat :=
  if low < high then some (low + r % (high - low)) else none

/-- How one `main`-loop iteration ends: it completes, or an
`ApplicationError` propagates out of `main` via `?`, or a panic aborts
the process. -/
inductive StepOutcome where
  | ok
  | err (e : ApplicationError)
  | panic (msg : String)
deriving DecidableEq, Repr

/-- The mutable locals of `main`'s loop: `sleep_time` (the change
interval, seconds), `staring` (the `Instant` of the last change, an
abstract timestamp in seconds) and the `SimpleWallpaper` value. -/
structure MainState where
  sleep_time : Nat
  staring : Nat
  simple_wallpaper : SimpleWallpaper
deriving DecidableEq, Repr

/-- The `SIMPLE_DESKTOP_TIMEOUT` block at the end of each loop iteration:
re-read the variable; when absent do nothing; when present parse it as
`u64` (a failure propagates via `?` as `WrongEnvironmentVariable` and
leaves `sleep_time` untouched) and multiply by 60. The `u64`
multiplication `timeout.parse::<u64>()? * 60` is a Rust program error
on overflow: under cargo's default checked profile it panics (modelled
here); under release it wraps, and in neither case does the interval
become the unwrapped product. -/
def env_step (env_timeout : Option String) (s : MainState) :
    MainState × StepOutcome :=
  match env_timeout with
  | none => (s, .ok)
  | some timeout =>
    match rust_parse_u64 timeout with
    | .error m => (s, .err (.WrongEnvironmentVariable m))
    | .ok n =>
      if n * 60 < 2 ^ 64 then ({ s with sleep_time := n * 60 }, .ok)
      else (s, .panic "attempt to multiply with overflow")

/-- The `Applying` part of a triggered iteration: inspect the
`download_wallpaper` result `dl`; an error propagates (`?`) with
`staring` untouched; on success `set_wallpaper` runs, and if it also
succeeds `staring` is reset to `now` and the `SIMPLE_DESKTOP_TIMEOUT`
block runs. -/
def apply_step (platformSet : String → Except String Unit)
    (env_timeout : Option String) (now : Nat) (s : MainState)
    (dl : DLResult) : MainState × FS × List Effect × StepOutcome :=
  match dl.result with
  | .error e => (s, dl.fs, dl.effects, .err e)
  | .ok wallpaper_name =>
    match set_wallpaper platformSet wallpaper_name with
    | .error e =>
      (s, dl.fs, dl.effects ++ [.setWallpaper wallpaper_name], .err e)
    | .ok _ =>
      ((env_step env_timeout { s with staring := now }).1, dl.fs,
        dl.effects ++ [.setWallpaper wallpaper_name],
        (env_step env_timeout { s with staring := now }).2)

/-- One iteration of `main`'s `loop`: if the elapsed time since `staring`
exceeds `sleep_time`, draw a random offset in `[0, total_count)`
(`r` is the raw RNG draw), download, set the wallpaper, and reset
`staring`; in every completing iteration re-read
`SIMPLE_DESKTOP_TIMEOUT`. Returns the new state, the filesystem, the
effects performed and the outcome. -/
def loop_iteration (httpText : String → HttpResult)
    (parse : String → Except String JsonWallpaperList)
    (httpBytes : String → Except String (List Nat))
    (platformSet : String → Except String Unit)
    (download_directory : String) (env_timeout : Option String)
    (r now : Nat) (fs : FS) (s : MainState) :
    MainState × FS × List Effect × StepOutcome :=
  if now - s.staring > s.sleep_time then
    match gen_range 0 s.simple_wallpaper.total_count r with
    | none => (s, fs, [], .panic "Uniform::new called with low >= high")
    | some offset =>
      apply_step platformSet env_timeout now s
        (download_wallpaper httpText parse httpBytes s.simple_wallpaper
          offset download_directory fs)
  else
    ((env_step env_timeout s).1, fs, [], (env_step env_timeout s).2)

/-- The per-iteration external inputs of the loop. -/
structure IterInput where
  env_timeout : Option String
  r : Nat
  now : Nat

/-- Runs `main`'s loop over a list of per-iteration inputs, stopping as
the program does when an iteration ends in an error or a panic. -/
def run_loop (httpText : String → HttpResult)
    (parse : String → Except String JsonWallpaperList)
    (httpBytes : String → Except String (List Nat))
    (platformSet : String → Except String Unit)
    (download_directory : String) :
    List IterInput → FS → MainState → MainState × FS
  | [], fs, s => (s, fs)
  | i :: rest, fs, s =>
    match loop_iteration httpText parse httpBytes platformSet
      download_directory i.env_timeout i.r i.now fs s with
    | (s1, fs1, _, .ok) =>
      run_loop httpText parse httpBytes platformSet download_directory
        rest fs1 s1
    | (s1, fs1, _, _) => (s1, fs1)

/-! ## Concrete fixtures used by counterexamples and witnesses -/

/-- A transport oracle that always returns some body text. -/
def httpOkBody : String → HttpResult := fun _ => .ok "body"

/-- A concrete catalog entry. -/
def obj0 : Object :=
  ⟨⟨none, none, none⟩, "42", "thumb", "permalink", "Sunset",
    "http://x/sunset.png"⟩

/-- Concrete page metadata with `total_count = 46`. -/
def meta0 : Meta := ⟨1, none, 0, none, 46⟩

/-- A parse oracle returning a page with no entries. -/
def parseEmptyPage : String → Except String JsonWallpaperList :=
  fun _ => .ok ⟨meta0, []⟩

/-- A parse oracle returning a page whose only entry is `obj0`. -/
def parseOnePage : String → Except String JsonWallpaperList :=
  fun _ => .ok ⟨meta0, [obj0]⟩

/-- An image-GET oracle that succeeds with fixed bytes. -/
def bytesOk : String → Except String (List Nat) :=
  fun _ => .ok [137, 80, 78, 71]

/-- An image-GET oracle that fails with a transport error. -/
def bytesFail : String → Except String (List Nat) :=
  fun _ => .error "connection refused"

/-- A wallpaper-setter oracle that always succeeds. -/
def setOk : String → Except String Unit := fun _ => .ok ()

/-- The catalog-client state `main` builds: count 46, subfolder name. -/
def sw0 : SimpleWallpaper := ⟨46, "SimpleDesktop"⟩

/-- An empty filesystem. -/
def emptyFS : FS := ⟨[], []⟩

/-- The loop state right after initialization: one-hour interval. -/
def state0 : MainState := ⟨3600, 0, sw0⟩

/-! ## Helper lemmas -/

/-- The operation `create_dir_all` never touches files. -/
theorem FS.create_dir_all_files (fs : FS) (p : String) :
    (fs.create_dir_all p).files = fs.files := by
  unfold FS.create_dir_all
  split <;> rfl

/-- Splicing the literal parts of the cache path. -/
theorem append_simple_desktop (dir t : String) :
    dir ++ "/" ++ "SimpleDesktop" ++ "/" ++ t ++ ".png" =
      dir ++ "/SimpleDesktop/" ++ t ++ ".png" := by
  simp only [String.append_assoc]
  rfl

/-! ## C10 — pictures-directory resolution order -/

/-- C10: `main` runs `get_image_path()?` before consulting
`SIMPLE_DESKTOP_DIRECTORY`; a failing platform call yields
`WindowsOSError` even when the environment override is set, and on
success the override (when present) discards the platform result. -/
theorem C10_platform_failure_before_env_override :
    (∀ m env_dir, resolve_download_directory (.error m) env_dir =
      .error (.WindowsOSError ("SHGetSpecialFolderPathW failed: " ++ m))) ∧
    (∀ d env_dir, resolve_download_directory (.ok d) env_dir =
      .ok (env_dir.getD d)) :=
  ⟨fun _ _ => rfl, fun _ _ => rfl⟩

/-! ## C3 — fetch_page error taxonomy -/

/-- C3: `get_wallpaper_list` fails with `RequestError` exactly when the
HTTP round trip to the catalog endpoint fails, and with
`DeserializationError` exactly when the body was obtained but does not
parse as `JsonWallpaperList`. -/
theorem C3_fetch_page_errors (httpText : String → HttpResult)
    (parse : String → Except String JsonWallpaperList) (offset : Nat) :
    ((∃ m, get_wallpaper_list httpText parse offset =
        .error (.RequestError m)) ↔
      (∃ m, httpText (get_url_for_offset offset) = .err m)) ∧
    ((∃ m, get_wallpaper_list httpText parse offset =
        .error (.DeserializationError m)) ↔
      (∃ body m, httpText (get_url_for_offset offset) = .ok body ∧
        parse body = .error m)) := by
  rcases h : httpText (get_url_for_offset offset) with body | msg
  · rcases hp : parse body with m | w
    · simp [get_wallpaper_list, h, hp]
    · simp [get_wallpaper_list, h, hp]
  · simp [get_wallpaper_list, h]

/-! ## C1 — empty-entries failure -/

/-- C1 counterexample: with a catalog page of zero entries and an
initially empty filesystem, `download_wallpaper` does fail with
`ApiError`, but it has already created the target directory
(`fs::create_dir_all` runs before the emptiness check), so the call does
perform a filesystem write. -/
theorem C1_counterexample :
    (download_wallpaper httpOkBody parseEmptyPage bytesFail sw0 3 "/pics"
        emptyFS).result =
      .error (.ApiError "The list of objects retrieved is less than 1") ∧
    (download_wallpaper httpOkBody parseEmptyPage bytesFail sw0 3 "/pics"
        emptyFS).fs.dirs = ["/pics/SimpleDesktop/"] ∧
    emptyFS.dirs = [] :=
  ⟨rfl, rfl, rfl⟩

/-- C1 (amended): on a page with zero entries `download_wallpaper` fails
with `ApiError` and creates no file and performs no image GET, but the
target directory has been created (idempotently) before the check. -/
theorem C1_empty_entries (httpText : String → HttpResult)
    (parse : String → Except String JsonWallpaperList)
    (httpBytes : String → Except String (List Nat))
    (self : SimpleWallpaper) (number : Nat) (dir : String) (fs : FS)
    (w : JsonWallpaperList)
    (hw : get_wallpaper_list httpText parse number = .ok w)
    (hobj : w.objects = []) :
    (download_wallpaper httpText parse httpBytes self number dir fs).result =
      .error (.ApiError "The list of objects retrieved is less than 1") ∧
    (download_wallpaper httpText parse httpBytes self number dir fs).fs =
      fs.create_dir_all (dir ++ "/" ++ self.directory ++ "/") ∧
    (download_wallpaper httpText parse httpBytes self number dir fs).fs.files
      = fs.files ∧
    (download_wallpaper httpText parse httpBytes self number dir fs).effects
      = [.catalogFetch number] := by
  unfold download_wallpaper
  simp [hw, hobj, FS.create_dir_all_files]

/-- C1 witness: the amended statement evaluated at concrete input. -/
theorem C1_empty_entries_witness :
    (download_wallpaper httpOkBody parseEmptyPage bytesFail sw0 3 "/pics"
        emptyFS).result =
      .error (.ApiError "The list of objects retrieved is less than 1") ∧
    (download_wallpaper httpOkBody parseEmptyPage bytesFail sw0 3 "/pics"
        emptyFS).fs =
      emptyFS.create_dir_all ("/pics" ++ "/" ++ sw0.directory ++ "/") ∧
    (download_wallpaper httpOkBody parseEmptyPage bytesFail sw0 3 "/pics"
        emptyFS).fs.files = emptyFS.files ∧
    (download_wallpaper httpOkBody parseEmptyPage bytesFail sw0 3 "/pics"
        emptyFS).effects = [.catalogFetch 3] :=
  C1_empty_entries httpOkBody parseEmptyPage bytesFail sw0 3 "/pics" emptyFS
    ⟨meta0, []⟩ rfl rfl

/-! ## C6 — path derivation purity -/

/-- C6: whenever `download_wallpaper` (with `main`'s subfolder name
"SimpleDesktop") returns a path, that path equals
`dir ++ "/SimpleDesktop/" ++ title ++ ".png"` for the first entry's
title — a pure function of the base directory and the title, independent
of the filesystem, the oracles, the offset, and any randomness. -/
theorem C6_path_derivation (httpText : String → HttpResult)
    (parse : String → Except String JsonWallpaperList)
    (httpBytes : String → Except String (List Nat))
    (sw : SimpleWallpaper) (number : Nat) (dir : String) (fs : FS)
    (w : JsonWallpaperList) (obj : Object) (rest : List Object) (p : String)
    (hdir : sw.directory = "SimpleDesktop")
    (hw : get_wallpaper_list httpText parse number = .ok w)
    (hobj : w.objects = obj :: rest)
    (hres : (download_wallpaper httpText parse httpBytes sw number dir
      fs).result = .ok p) :
    p = dir ++ "/SimpleDesktop/" ++ obj.title ++ ".png" := by
  unfold download_wallpaper at hres
  simp only [hw, hobj, hdir] at hres
  rw [← append_simple_desktop]
  split at hres
  · exact (Except.ok.injEq _ _ ▸ hres).symm
  · split at hres
    · exact absurd hres (by simp)
    · exact (Except.ok.injEq _ _ ▸ hres).symm

/-- C6 witness: the path law evaluated at a concrete successful call. -/
theorem C6_path_derivation_witness :
    "/pics/SimpleDesktop/Sunset.png" =
      "/pics" ++ "/SimpleDesktop/" ++ "Sunset" ++ ".png" :=
  C6_path_derivation httpOkBody parseOnePage bytesOk sw0 0 "/pics" emptyFS
    ⟨meta0, [obj0]⟩ obj0 [] "/pics/SimpleDesktop/Sunset.png" rfl rfl rfl rfl

/-! ## More filesystem helper lemmas -/

/-- After `create_dir_all p`, the directory `p` exists. -/
theorem FS.contains_create_dir_all (fs : FS) (p : String) :
    (fs.create_dir_all p).dirs.contains p = true := by
  unfold FS.create_dir_all
  split
  · assumption
  · simp

/-- The operation `create_dir_all` is the identity when the directory already exists. -/
theorem FS.create_dir_all_of_contains (fs : FS) (p : String)
    (h : fs.dirs.contains p = true) : fs.create_dir_all p = fs := by
  unfold FS.create_dir_all
  rw [if_pos h]

/-- The operation `create_file` never touches directories. -/
theorem FS.create_file_dirs (fs : FS) (p : String) :
    (fs.create_file p).dirs = fs.dirs := rfl

/-- The operation `write_all` never touches directories. -/
theorem FS.write_all_dirs (fs : FS) (p b) :
    (fs.write_all p b).dirs = fs.dirs := rfl

/-! ## C2 — failed image GET leaves an empty file behind -/

/-- C2 counterexample: a cache-miss call whose image GET fails returns
`RequestError`, yet the target path exists afterwards (`File::create`
ran before the GET), and a second call with the same entry is a cache
hit: it returns the path to the empty file with zero image GETs. -/
theorem C2_counterexample :
    (download_wallpaper httpOkBody parseOnePage bytesFail sw0 0 "/pics"
        emptyFS).result = .error (.RequestError "connection refused") ∧
    (download_wallpaper httpOkBody parseOnePage bytesFail sw0 0 "/pics"
        emptyFS).fs.pathExists "/pics/SimpleDesktop/Sunset.png" = true ∧
    (download_wallpaper httpOkBody parseOnePage bytesFail sw0 0 "/pics"
        ((download_wallpaper httpOkBody parseOnePage bytesFail sw0 0 "/pics"
          emptyFS).fs)).result = .ok "/pics/SimpleDesktop/Sunset.png" ∧
    countDownloads (download_wallpaper httpOkBody parseOnePage bytesFail sw0
        0 "/pics" ((download_wallpaper httpOkBody parseOnePage bytesFail sw0
          0 "/pics" emptyFS).fs)).effects = 0 :=
  ⟨rfl, rfl, rfl, rfl⟩

/-- C2 (amended): on a cache miss whose image GET fails,
`download_wallpaper` returns `RequestError`, but the target file —
created empty by `File::create` before the GET — remains on disk, so a
later call with the same entry is treated as a cache hit: it returns the
same path and performs no image GET. -/
theorem C2_request_error_leaves_file (httpText : String → HttpResult)
    (parse : String → Except String JsonWallpaperList)
    (httpBytes : String → Except String (List Nat))
    (self : SimpleWallpaper) (number : Nat) (dir : String) (fs : FS)
    (w : JsonWallpaperList) (obj : Object) (rest : List Object) (m : String)
    (hw : get_wallpaper_list httpText parse number = .ok w)
    (hobj : w.objects = obj :: rest)
    (hbytes : httpBytes obj.url = .error m)
    (hfresh : (fs.create_dir_all (dir ++ "/" ++ self.directory ++
      "/")).pathExists (dir ++ "/" ++ self.directory ++ "/" ++ obj.title ++
      ".png") = false) :
    (download_wallpaper httpText parse httpBytes self number dir fs).result
      = .error (.RequestError m) ∧
    (download_wallpaper httpText parse httpBytes self number dir
        fs).fs.files.lookup
      (dir ++ "/" ++ self.directory ++ "/" ++ obj.title ++ ".png")
      = some [] ∧
    (download_wallpaper httpText parse httpBytes self number dir
        ((download_wallpaper httpText parse httpBytes self number dir
          fs).fs)).result
      = .ok (dir ++ "/" ++ self.directory ++ "/" ++ obj.title ++ ".png") ∧
    countDownloads (download_wallpaper httpText parse httpBytes self number
        dir ((download_wallpaper httpText parse httpBytes self number dir
          fs).fs)).effects = 0 := by
  have h1 : download_wallpaper httpText parse httpBytes self number dir fs =
      ⟨.error (.RequestError m),
        ((fs.create_dir_all (dir ++ "/" ++ self.directory ++
          "/")).create_file (dir ++ "/" ++ self.directory ++ "/" ++
          obj.title ++ ".png")),
        [.catalogFetch number, .imageDownload obj.url]⟩ := by
    unfold download_wallpaper
    simp [hw, hobj, hfresh, hbytes]
  have hdirs : ((fs.create_dir_all (dir ++ "/" ++ self.directory ++
      "/")).create_file (dir ++ "/" ++ self.directory ++ "/" ++
      obj.title ++ ".png")).dirs.contains
      (dir ++ "/" ++ self.directory ++ "/") = true := by
    rw [FS.create_file_dirs]
    exact FS.contains_create_dir_all fs _
  have h2 : download_wallpaper httpText parse httpBytes self number dir
      ((download_wallpaper httpText parse httpBytes self number dir
        fs).fs) =
      ⟨.ok (dir ++ "/" ++ self.directory ++ "/" ++ obj.title ++ ".png"),
        ((fs.create_dir_all (dir ++ "/" ++ self.directory ++
          "/")).create_file (dir ++ "/" ++ self.directory ++ "/" ++
          obj.title ++ ".png")),
        [.catalogFetch number]⟩ := by
    rw [h1]
    unfold download_wallpaper
    rw [hw]
    simp only [hobj]
    rw [FS.create_dir_all_of_contains _ _ hdirs]
    simp [FS.pathExists, FS.create_file, List.lookup]
  rw [h2, h1]
  exact ⟨rfl, by simp [FS.create_file, List.lookup], rfl, rfl⟩

/-- C2 witness: the amended statement at a concrete input. -/
theorem C2_request_error_leaves_file_witness :
    (download_wallpaper httpOkBody parseOnePage bytesFail sw0 7 "/base"
        emptyFS).result = .error (.RequestError "connection refused") ∧
    (download_wallpaper httpOkBody parseOnePage bytesFail sw0 7 "/base"
        emptyFS).fs.files.lookup
      ("/base" ++ "/" ++ sw0.directory ++ "/" ++ obj0.title ++ ".png")
      = some [] ∧
    (download_wallpaper httpOkBody parseOnePage bytesFail sw0 7 "/base"
        ((download_wallpaper httpOkBody parseOnePage bytesFail sw0 7 "/base"
          emptyFS).fs)).result
      = .ok ("/base" ++ "/" ++ sw0.directory ++ "/" ++ obj0.title ++
        ".png") ∧
    countDownloads (download_wallpaper httpOkBody parseOnePage bytesFail sw0
        7 "/base" ((download_wallpaper httpOkBody parseOnePage bytesFail sw0
          7 "/base" emptyFS).fs)).effects = 0 :=
  C2_request_error_leaves_file httpOkBody parseOnePage bytesFail sw0 7
    "/base" emptyFS ⟨meta0, [obj0]⟩ obj0 [] "connection refused" rfl rfl rfl
    rfl

/-! ## C5 — idempotent cache hit -/

/-- C5: when the catalog deterministically returns the same entry for an
offset, the image GET succeeds, and the target path is initially absent,
two consecutive `download_wallpaper` calls with the same
`(offset, base_directory)` return the identical path and perform exactly
one image GET between them: the second call is a pure cache hit. -/
theorem C5_idempotent_cache_hit (httpText : String → HttpResult)
    (parse : String → Except String JsonWallpaperList)
    (httpBytes : String → Except String (List Nat))
    (self : SimpleWallpaper) (number : Nat) (dir : String) (fs : FS)
    (w : JsonWallpaperList) (obj : Object) (rest : List Object)
    (bytes : List Nat)
    (hw : get_wallpaper_list httpText parse number = .ok w)
    (hobj : w.objects = obj :: rest)
    (hbytes : httpBytes obj.url = .ok bytes)
    (hfresh : (fs.create_dir_all (dir ++ "/" ++ self.directory ++
      "/")).pathExists (dir ++ "/" ++ self.directory ++ "/" ++ obj.title ++
      ".png") = false) :
    (download_wallpaper httpText parse httpBytes self number dir fs).result
      = .ok (dir ++ "/" ++ self.directory ++ "/" ++ obj.title ++ ".png") ∧
    (download_wallpaper httpText parse httpBytes self number dir
        ((download_wallpaper httpText parse httpBytes self number dir
          fs).fs)).result
      = .ok (dir ++ "/" ++ self.directory ++ "/" ++ obj.title ++ ".png") ∧
    countDownloads
      ((download_wallpaper httpText parse httpBytes self number dir
          fs).effects ++
        (download_wallpaper httpText parse httpBytes self number dir
          ((download_wallpaper httpText parse httpBytes self number dir
            fs).fs)).effects) = 1 := by
  have h1 : download_wallpaper httpText parse httpBytes self number dir fs =
      ⟨.ok (dir ++ "/" ++ self.directory ++ "/" ++ obj.title ++ ".png"),
        (((fs.create_dir_all (dir ++ "/" ++ self.directory ++
          "/")).create_file (dir ++ "/" ++ self.directory ++ "/" ++
          obj.title ++ ".png")).write_all (dir ++ "/" ++ self.directory ++
          "/" ++ obj.title ++ ".png") bytes),
        [.catalogFetch number, .imageDownload obj.url]⟩ := by
    unfold download_wallpaper
    simp [hw, hobj, hfresh, hbytes]
  have hdirs : ((((fs.create_dir_all (dir ++ "/" ++ self.directory ++
      "/")).create_file (dir ++ "/" ++ self.directory ++ "/" ++
      obj.title ++ ".png")).write_all (dir ++ "/" ++ self.directory ++
      "/" ++ obj.title ++ ".png") bytes)).dirs.contains
      (dir ++ "/" ++ self.directory ++ "/") = true := by
    rw [FS.write_all_dirs, FS.create_file_dirs]
    exact FS.contains_create_dir_all fs _
  have h2 : download_wallpaper httpText parse httpBytes self number dir
      ((download_wallpaper httpText parse httpBytes self number dir
        fs).fs) =
      ⟨.ok (dir ++ "/" ++ self.directory ++ "/" ++ obj.title ++ ".png"),
        (((fs.create_dir_all (dir ++ "/" ++ self.directory ++
          "/")).create_file (dir ++ "/" ++ self.directory ++ "/" ++
          obj.title ++ ".png")).write_all (dir ++ "/" ++ self.directory ++
          "/" ++ obj.title ++ ".png") bytes),
        [.catalogFetch number]⟩ := by
    rw [h1]
    unfold download_wallpaper
    rw [hw]
    simp only [hobj]
    rw [FS.create_dir_all_of_contains _ _ hdirs]
    simp [FS.pathExists, FS.write_all, List.lookup]
  rw [h2, h1]
  refine ⟨rfl, rfl, ?_⟩
  simp [countDownloads]

/-- C5 witness: the cache-hit law at a concrete input. -/
theorem C5_idempotent_cache_hit_witness :
    (download_wallpaper httpOkBody parseOnePage bytesOk sw0 5 "/home"
        emptyFS).result
      = .ok ("/home" ++ "/" ++ sw0.directory ++ "/" ++ obj0.title ++
        ".png") ∧
    (download_wallpaper httpOkBody parseOnePage bytesOk sw0 5 "/home"
        ((download_wallpaper httpOkBody parseOnePage bytesOk sw0 5 "/home"
          emptyFS).fs)).result
      = .ok ("/home" ++ "/" ++ sw0.directory ++ "/" ++ obj0.title ++
        ".png") ∧
    countDownloads
      ((download_wallpaper httpOkBody parseOnePage bytesOk sw0 5 "/home"
          emptyFS).effects ++
        (download_wallpaper httpOkBody parseOnePage bytesOk sw0 5 "/home"
          ((download_wallpaper httpOkBody parseOnePage bytesOk sw0 5 "/home"
            emptyFS).fs)).effects) = 1 :=
  C5_idempotent_cache_hit httpOkBody parseOnePage bytesOk sw0 5 "/home"
    emptyFS ⟨meta0, [obj0]⟩ obj0 [] [137, 80, 78, 71] rfl rfl rfl rfl

/-! ## Scheduler-loop helper lemmas -/

/-- A catalog client reporting zero wallpapers, and the loop state built
from it. -/
def swZero : SimpleWallpaper := ⟨0, "SimpleDesktop"⟩

/-- Loop state with `total_count = 0` and the default one-hour interval. -/
def stateZero : MainState := ⟨3600, 0, swZero⟩

/-- The helper `env_step` never touches `staring` or the catalog-client state. -/
theorem env_step_preserves (e : Option String) (s : MainState) :
    (env_step e s).1.staring = s.staring ∧
    (env_step e s).1.simple_wallpaper = s.simple_wallpaper := by
  rcases e with _ | t
  · exact ⟨rfl, rfl⟩
  · rcases h : rust_parse_u64 t with m | n
    · simp [env_step, h]
    · simp only [env_step, h]
      split
      · exact ⟨rfl, rfl⟩
      · exact ⟨rfl, rfl⟩

/-- The function `download_wallpaper`'s first effect is always the catalog fetch at
the requested offset. -/
theorem download_wallpaper_effects_head (httpText : String → HttpResult)
    (parse : String → Except String JsonWallpaperList)
    (httpBytes : String → Except String (List Nat))
    (self : SimpleWallpaper) (number : Nat) (dir : String) (fs : FS) :
    (download_wallpaper httpText parse httpBytes self number dir
      fs).effects.head? = some (.catalogFetch number) := by
  unfold download_wallpaper
  rcases hw : get_wallpaper_list httpText parse number with e | w
  · simp
  · rcases hobj : w.objects with _ | ⟨obj, rest⟩
    · simp [hobj]
    · simp only [hobj]
      split
      · simp
      · rcases hb : httpBytes obj.url with m | bytes
        · simp [hb]
        · simp [hb]

/-- The projection `head?` looks only at the left part of an append when nonempty. -/
theorem head_append_of_head {α : Type} (l l' : List α) (a : α)
    (h : l.head? = some a) : (l ++ l').head? = some a := by
  cases l with
  | nil => simp at h
  | cons x xs => simpa using h

/-- The helper `apply_step` keeps the catalog-client state unchanged. -/
theorem apply_step_preserves_simple_wallpaper
    (ps : String → Except String Unit) (e : Option String) (now : Nat)
    (s : MainState) (dl : DLResult) :
    (apply_step ps e now s dl).1.simple_wallpaper = s.simple_wallpaper := by
  rcases hr : dl.result with er | name
  · simp [apply_step, hr]
  · rcases hs : set_wallpaper ps name with er | u
    · simp [apply_step, hr, hs]
    · have h2 := (env_step_preserves e { s with staring := now }).2
      simp [apply_step, hr, hs, h2]

/-- The helper `apply_step` keeps the download's leading catalog-fetch effect. -/
theorem apply_step_effects_head (ps : String → Except String Unit)
    (e : Option String) (now : Nat) (s : MainState) (dl : DLResult)
    (a : Effect) (h : dl.effects.head? = some a) :
    (apply_step ps e now s dl).2.2.1.head? = some a := by
  rcases hr : dl.result with er | name
  · simp [apply_step, hr, h]
  · have happ := head_append_of_head dl.effects [Effect.setWallpaper name]
      a h
    rcases hs : set_wallpaper ps name with er | u
    · simp [apply_step, hr, hs, happ]
    · simp [apply_step, hr, hs, happ]

/-- No branch of a loop iteration modifies the catalog-client state
(`total_count` in particular). -/
theorem loop_iteration_preserves_simple_wallpaper
    (httpText : String → HttpResult)
    (parse : String → Except String JsonWallpaperList)
    (httpBytes : String → Except String (List Nat))
    (ps : String → Except String Unit) (dd : String) (e : Option String)
    (r now : Nat) (fs : FS) (s : MainState) :
    (loop_iteration httpText parse httpBytes ps dd e r now fs
      s).1.simple_wallpaper = s.simple_wallpaper := by
  unfold loop_iteration
  split
  · rcases hg : gen_range 0 s.simple_wallpaper.total_count r
      with _ | offset
    · rfl
    · exact apply_step_preserves_simple_wallpaper ps e now s _
  · exact (env_step_preserves e s).2

/-- Across any run of the loop, the catalog-client state captured at
startup is never replaced. -/
theorem run_loop_preserves_simple_wallpaper
    (httpText : String → HttpResult)
    (parse : String → Except String JsonWallpaperList)
    (httpBytes : String → Except String (List Nat))
    (ps : String → Except String Unit) (dd : String)
    (inputs : List IterInput) :
    ∀ (fs0 : FS) (s0 : MainState),
      (run_loop httpText parse httpBytes ps dd inputs fs0
        s0).1.simple_wallpaper = s0.simple_wallpaper := by
  induction inputs with
  | nil => intro fs0 s0; rfl
  | cons i rest ih =>
    intro fs0 s0
    unfold run_loop
    rcases h : loop_iteration httpText parse httpBytes ps dd i.env_timeout
      i.r i.now fs0 s0 with ⟨s1, fs1, eff, out⟩
    have hpres : s1.simple_wallpaper = s0.simple_wallpaper := by
      have h2 := loop_iteration_preserves_simple_wallpaper httpText parse
        httpBytes ps dd i.env_timeout i.r i.now fs0 s0
      rw [h] at h2
      exact h2
    cases out with
    | ok =>
      simp only [h]
      exact (ih fs1 s1).trans hpres
    | err e => simp only [h]; exact hpres
    | panic m => simp only [h]; exact hpres

/-! ## C8 — elapsed-time gating -/

/-- C8: in an iteration whose elapsed time is at most the change
interval, no catalog fetch, image download or wallpaper platform call
occurs (the effect list is empty), the filesystem is untouched, and
`staring` (the last-change instant) is unchanged. -/
theorem C8_elapsed_gating (httpText : String → HttpResult)
    (parse : String → Except String JsonWallpaperList)
    (httpBytes : String → Except String (List Nat))
    (ps : String → Except String Unit) (dd : String) (env : Option String)
    (r now : Nat) (fs : FS) (s : MainState)
    (h : now - s.staring ≤ s.sleep_time) :
    (loop_iteration httpText parse httpBytes ps dd env r now fs s).2.2.1
      = [] ∧
    (loop_iteration httpText parse httpBytes ps dd env r now fs s).2.1
      = fs ∧
    (loop_iteration httpText parse httpBytes ps dd env r now fs
      s).1.staring = s.staring := by
  have h1 : loop_iteration httpText parse httpBytes ps dd env r now fs s =
      ((env_step env s).1, fs, [], (env_step env s).2) := by
    unfold loop_iteration
    rw [if_neg (not_lt.mpr h)]
  rw [h1]
  exact ⟨rfl, rfl, (env_step_preserves env s).1⟩

/-- C8 witness: a concrete quiet iteration (10 s elapsed, 3600 s
interval) performs no effects and keeps `staring`. -/
theorem C8_elapsed_gating_witness :
    (loop_iteration httpOkBody parseOnePage bytesOk setOk "/pics" none 0 10
      emptyFS state0).2.2.1 = [] ∧
    (loop_iteration httpOkBody parseOnePage bytesOk setOk "/pics" none 0 10
      emptyFS state0).2.1 = emptyFS ∧
    (loop_iteration httpOkBody parseOnePage bytesOk setOk "/pics" none 0 10
      emptyFS state0).1.staring = state0.staring :=
  C8_elapsed_gating httpOkBody parseOnePage bytesOk setOk "/pics" none 0 10
    emptyFS state0 (by decide)

/-! ## C9 — panic on zero total_count -/

/-- C9: when the catalog reported `total_count = 0` at startup, the
first triggered iteration panics inside `gen_range` (rand's empty-range
panic) instead of returning any `ApplicationError`; no effect is
performed. -/
theorem C9_zero_total_count_panics (httpText : String → HttpResult)
    (parse : String → Except String JsonWallpaperList)
    (httpBytes : String → Except String (List Nat))
    (ps : String → Except String Unit) (dd : String) (env : Option String)
    (r now : Nat) (fs : FS) (s : MainState)
    (h1 : now - s.staring > s.sleep_time)
    (h2 : s.simple_wallpaper.total_count = 0) :
    loop_iteration httpText parse httpBytes ps dd env r now fs s =
      (s, fs, [], .panic "Uniform::new called with low >= high") ∧
    ∀ e : ApplicationError,
      (loop_iteration httpText parse httpBytes ps dd env r now fs
        s).2.2.2 ≠ .err e := by
  have hg : gen_range 0 s.simple_wallpaper.total_count r = none := by
    unfold gen_range
    rw [h2]
    rfl
  have h3 : loop_iteration httpText parse httpBytes ps dd env r now fs s =
      (s, fs, [], .panic "Uniform::new called with low >= high") := by
    unfold loop_iteration
    rw [if_pos h1, hg]
  refine ⟨h3, ?_⟩
  simp [h3]

/-- C9 witness: a concrete triggered iteration with `total_count = 0`
ends in the panic outcome. -/
theorem C9_zero_total_count_panics_witness :
    loop_iteration httpOkBody parseOnePage bytesOk setOk "/pics" none 0
      4000 emptyFS stateZero =
      (stateZero, emptyFS, [],
        .panic "Uniform::new called with low >= high") ∧
    ∀ e : ApplicationError,
      (loop_iteration httpOkBody parseOnePage bytesOk setOk "/pics" none 0
        4000 emptyFS stateZero).2.2.2 ≠ .err e :=
  C9_zero_total_count_panics httpOkBody parseOnePage bytesOk setOk "/pics"
    none 0 4000 emptyFS stateZero (by decide) rfl

/-! ## C4 — offset bound and total_count stability -/

/-- C4: in a triggered iteration with a positive `total_count`, the
drawn offset satisfies `0 ≤ offset < total_count`, the catalog fetch of
that iteration uses exactly that offset, no iteration (nor any run of
the loop) ever changes the captured catalog-client state, and
`SimpleWallpaper::new` captures `total_count` from `fetch_page(0)`. -/
theorem C4_offset_bound (httpText : String → HttpResult)
    (parse : String → Except String JsonWallpaperList)
    (httpBytes : String → Except String (List Nat))
    (ps : String → Except String Unit) (dd : String) (env : Option String)
    (r now : Nat) (fs : FS) (s : MainState)
    (h1 : now - s.staring > s.sleep_time)
    (h2 : 0 < s.simple_wallpaper.total_count) :
    ∃ offset,
      gen_range 0 s.simple_wallpaper.total_count r = some offset ∧
      offset < s.simple_wallpaper.total_count ∧
      (loop_iteration httpText parse httpBytes ps dd env r now fs
        s).2.2.1.head? = some (.catalogFetch offset) ∧
      (loop_iteration httpText parse httpBytes ps dd env r now fs
        s).1.simple_wallpaper = s.simple_wallpaper ∧
      (∀ (inputs : List IterInput) (fs0 : FS) (s0 : MainState),
        (run_loop httpText parse httpBytes ps dd inputs fs0
          s0).1.simple_wallpaper = s0.simple_wallpaper) ∧
      (∀ (d : String) (sw : SimpleWallpaper),
        SimpleWallpaper.new httpText parse d = .ok sw →
        ∃ w, get_wallpaper_list httpText parse 0 = .ok w ∧
          sw.total_count = w.meta.total_count) := by
  have hg : gen_range 0 s.simple_wallpaper.total_count r =
      some (r % s.simple_wallpaper.total_count) := by
    unfold gen_range
    rw [if_pos h2]
    simp
  refine ⟨r % s.simple_wallpaper.total_count, hg, Nat.mod_lt r h2, ?_,
    loop_iteration_preserves_simple_wallpaper httpText parse httpBytes ps
      dd env r now fs s,
    run_loop_preserves_simple_wallpaper httpText parse httpBytes ps dd,
    ?_⟩
  · have h3 : loop_iteration httpText parse httpBytes ps dd env r now fs s
        = apply_step ps env now s
          (download_wallpaper httpText parse httpBytes s.simple_wallpaper
            (r % s.simple_wallpaper.total_count) dd fs) := by
      unfold loop_iteration
      rw [if_pos h1, hg]
    rw [h3]
    exact apply_step_effects_head _ _ _ _ _ _
      (download_wallpaper_effects_head httpText parse httpBytes
        s.simple_wallpaper _ dd fs)
  · intro d sw hnew
    unfold SimpleWallpaper.new at hnew
    rcases hw : get_wallpaper_list httpText parse 0 with e | w
    · rw [hw] at hnew
      exact absurd hnew (by simp)
    · rw [hw] at hnew
      refine ⟨w, rfl, ?_⟩
      injection hnew with h4
      rw [← h4]

/-- C4 witness: the bound at a concrete triggered iteration with
`total_count = 46`. -/
theorem C4_offset_bound_witness :
    ∃ offset,
      gen_range 0 state0.simple_wallpaper.total_count 100 = some offset ∧
      offset < state0.simple_wallpaper.total_count ∧
      (loop_iteration httpOkBody parseOnePage bytesOk setOk "/pics" none
        100 4000 emptyFS state0).2.2.1.head? =
        some (.catalogFetch offset) ∧
      (loop_iteration httpOkBody parseOnePage bytesOk setOk "/pics" none
        100 4000 emptyFS state0).1.simple_wallpaper =
        state0.simple_wallpaper ∧
      (∀ (inputs : List IterInput) (fs0 : FS) (s0 : MainState),
        (run_loop httpOkBody parseOnePage bytesOk setOk "/pics" inputs fs0
          s0).1.simple_wallpaper = s0.simple_wallpaper) ∧
      (∀ (d : String) (sw : SimpleWallpaper),
        SimpleWallpaper.new httpOkBody parseOnePage d = .ok sw →
        ∃ w, get_wallpaper_list httpOkBody parseOnePage 0 = .ok w ∧
          sw.total_count = w.meta.total_count) :=
  C4_offset_bound httpOkBody parseOnePage bytesOk setOk "/pics" none 100
    4000 emptyFS state0 (by decide) (by decide)

/-! ## C7 — timeout override -/

/-- C7 counterexample: `"307445734561825861"` parses as a `u64`, yet the
change interval does not become `N * 60` seconds: the `u64` product
overflows (`N * 60 ≥ 2^64`), which is a Rust program error — a panic
under cargo's default checked profile (modelled), a wrap in release —
so the interval stays at 3600, not `N * 60`. -/
theorem C7_counterexample :
    rust_parse_u64 "307445734561825861" = .ok 307445734561825861 ∧
    (env_step (some "307445734561825861") state0).1.sleep_time = 3600 ∧
    307445734561825861 * 60 ≠ 3600 ∧
    (env_step (some "307445734561825861") state0).2 =
      .panic "attempt to multiply with overflow" :=
  ⟨rfl, rfl, by decide, rfl⟩

/-- C7 (amended): every completing loop iteration re-reads
`SIMPLE_DESKTOP_TIMEOUT`; when it parses as a `u64` `n` with
`n * 60 < 2^64` the interval becomes `n * 60` seconds ("5" yields 300);
when it is present but unparsable, a `WrongEnvironmentVariable`
configuration error propagates (terminating the process) and the
interval is never updated. -/
theorem C7_timeout_override (s : MainState) (t : String) (n : Nat)
    (hparse : rust_parse_u64 t = .ok n)
    (hof : n * 60 < 2 ^ 64) :
    env_step (some t) s = ({ s with sleep_time := n * 60 }, .ok) ∧
    env_step (some "5") s = ({ s with sleep_time := 300 }, .ok) ∧
    (∀ t' m, rust_parse_u64 t' = .error m →
      env_step (some t') s = (s, .err (.WrongEnvironmentVariable m))) ∧
    rust_parse_u64 "abc" = .error "invalid digit found in string" ∧
    (∀ (ht : String → HttpResult)
      (pr : String → Except String JsonWallpaperList)
      (hb : String → Except String (List Nat))
      (pset : String → Except String Unit) (dd : String)
      (e : Option String) (r now : Nat) (fs0 : FS) (s0 : MainState),
      now - s0.staring ≤ s0.sleep_time →
      loop_iteration ht pr hb pset dd e r now fs0 s0 =
        ((env_step e s0).1, fs0, [], (env_step e s0).2)) := by
  refine ⟨?_, rfl, ?_, rfl, ?_⟩
  · unfold env_step
    simp only [hparse]
    rw [if_pos hof]
  · intro t' m h
    unfold env_step
    simp only [h]
  · intro ht pr hb pset dd e r now fs0 s0 hle
    unfold loop_iteration
    rw [if_neg (not_lt.mpr hle)]

/-- C7 witness: `"5"` yields a 300-second interval, concretely. -/
theorem C7_timeout_override_witness :
    env_step (some "5") state0 = ({ state0 with sleep_time := 5 * 60 },
      .ok) ∧
    env_step (some "5") state0 = ({ state0 with sleep_time := 300 },
      .ok) ∧
    (∀ t' m, rust_parse_u64 t' = .error m →
      env_step (some t') state0 =
        (state0, .err (.WrongEnvironmentVariable m))) ∧
    rust_parse_u64 "abc" = .error "invalid digit found in string" ∧
    (∀ (ht : String → HttpResult)
      (pr : String → Except String JsonWallpaperList)
      (hb : String → Except String (List Nat))
      (pset : String → Except String Unit) (dd : String)
      (e : Option String) (r now : Nat) (fs0 : FS) (s0 : MainState),
      now - s0.staring ≤ s0.sleep_time →
      loop_iteration ht pr hb pset dd e r now fs0 s0 =
        ((env_step e s0).1, fs0, [], (env_step e s0).2)) :=
  C7_timeout_override state0 "5" 5 rfl (by decide)

end RustyWallpaper
